import Mathlib

/-!
Verification of the Cloudflare IP Checker reconciler (src/index.ts).

The program is a polling loop: each tick discovers the host's public IP,
lists the DNS records of a zone, filters them by a configured allow-list of
record names, and for each matched record re-reads its content and issues a
full-replace update when the content differs from the discovered IP.

The effectful code is embedded shallowly: every outbound HTTP call is a
`Request` answered by an oracle (`OracleState`), and the tick threads a
state `St` carrying the oracle, the trace of requests issued so far, and
the log of console messages.  Two oracle modes are provided: `scripted`
(a fixed sequence of responses, as in the spec's round-trip test) and
`live` (a functional model of a well-behaved provider whose zone is a list
of records that `PUT` mutates), used for the two-tick idempotence claim.
-/

namespace CFIPChecker

/-- The DNS record shape used by the program (interface DNSRecord). -/
structure DNSRecord where
  id : String
  name : String
  type : String
  content : String
  proxied : Bool
  ttl : Nat
  deriving Repr, DecidableEq

/-- Body of the full-replace PUT issued by updateDNSRecord:
`{ type, name, content, ttl, proxied }`. -/
structure PutBody where
  type : String
  name : String
  content : String
  ttl : Nat
  proxied : Bool
  deriving Repr, DecidableEq

/-- One outbound HTTP call, with the data that varies per call.  The bearer
token and zone id are constant configuration and are left implicit. -/
inductive Request where
  /-- GET of the IP-echo service (api.ipify.org, format=json). -/
  | getIP : Request
  /-- GET zones/:zone/dns_records?per_page=n (the code always passes 100). -/
  | listRecords (perPage : Nat) : Request
  /-- GET zones/:zone/dns_records/:recordId -/
  | getRecord (recordId : String) : Request
  /-- PUT zones/:zone/dns_records/:recordId with the given JSON body. -/
  | putRecord (recordId : String) (body : PutBody) : Request
  deriving Repr, DecidableEq

/-- A response delivered to one call.  `transportFail` models the fetch (or
its JSON parsing) itself throwing; the other constructors model parsed
response payloads with their `success` flag and `errors` array. -/
inductive Response where
  | transportFail : Response
  | ipResp (ip : String) : Response
  | listResp (success : Bool) (result : List DNSRecord) (errors : List String) : Response
  | getResp (success : Bool) (result : DNSRecord) (errors : List String) : Response
  | putResp (success : Bool) (errors : List String) : Response
  deriving Repr, DecidableEq

/-- Errors thrown by the embedded operations, mirroring the `new Error`
messages in the source; provider-reported errors carry the provider's
`errors` payload. -/
inductive JSError where
  /-- `Failed to get current IP: ...` (the try/catch in getCurrentIP). -/
  | failedGetIP : JSError
  /-- `Failed to get DNS records: ${JSON.stringify(data.errors)}` -/
  | failedGetRecords (errors : List String) : JSError
  /-- `Failed to get DNS record: ${JSON.stringify(data.errors)}` -/
  | failedGetRecord (errors : List String) : JSError
  /-- `Failed to update DNS record: ${JSON.stringify(data.errors)}` -/
  | failedUpdateRecord (errors : List String) : JSError
  /-- a fetch or JSON-parse failure propagating uncaught. -/
  | transport : JSError
  deriving Repr, DecidableEq

/-- Console messages the tick prints, in order. -/
inductive LogMsg where
  | starting : LogMsg
  | lookingFor (names : List String) : LogMsg
  | currentServerIP (ip : String) : LogMsg
  | fetchingRecords : LogMsg
  | noMatchWarning (names : List String) : LogMsg
  | foundMatching (n : Nat) : LogMsg
  | checkingRecord (name type : String) : LogMsg
  | currentDNSIP (ip : String) : LogMsg
  | mismatchDetected : LogMsg
  | updatedRecord (name ip : String) : LogMsg
  | upToDate : LogMsg
  | recordError (name : String) (e : JSError) : LogMsg
  | checkCompleted : LogMsg
  | fatalError (e : JSError) : LogMsg
  deriving Repr, DecidableEq

/-- The environment answering requests.  `scripted` consumes a fixed list of
responses in call order (an exhausted script is a transport failure).
`live` is a functional model of a cooperative provider: it echoes a fixed
discovered IP, lists its zone, serves single-record GETs by id lookup, and
applies PUT bodies to its zone. -/
inductive OracleState where
  | scripted (rs : List Response) : OracleState
  | live (zone : List DNSRecord) (ip : String) : OracleState
  deriving Repr, DecidableEq

/-- Apply a full-replace PUT body to a stored record (the provider keeps the
record's id; every other field is replaced by the body). -/
def applyPut (body : PutBody) (r : DNSRecord) : DNSRecord :=
  { id := r.id, name := body.name, type := body.type,
    content := body.content, proxied := body.proxied, ttl := body.ttl }

/-- A placeholder record used by the live oracle for a failed single-record
GET (the code never reads `result` when `success` is false). -/
def dummyRecord : DNSRecord :=
  { id := "", name := "", type := "", content := "", proxied := false, ttl := 0 }

/-- One oracle transition: the response to a request, and the next oracle. -/
def oracleStep : OracleState → Request → Response × OracleState
  | .scripted [], _ => (.transportFail, .scripted [])
  | .scripted (r :: rs), _ => (r, .scripted rs)
  | .live zone ip, .getIP => (.ipResp ip, .live zone ip)
  | .live zone ip, .listRecords _ => (.listResp true zone [], .live zone ip)
  | .live zone ip, .getRecord rid =>
      match zone.find? (fun r => r.id == rid) with
      | some r => (.getResp true r [], .live zone ip)
      | none => (.getResp false dummyRecord ["record not found"], .live zone ip)
  | .live zone ip, .putRecord rid body =>
      (.putResp true [],
       .live (zone.map (fun r => if r.id == rid then applyPut body r else r)) ip)

/-- The state threaded through a tick: the oracle, the trace of requests
issued so far, and the log of console messages printed so far. -/
structure St where
  oracle : OracleState
  trace : List Request
  log : List LogMsg
  deriving Repr, DecidableEq

/-- Issue one request: record it in the trace and consume the oracle. -/
def emit (req : Request) (s : St) : Response × St :=
  let (resp, o) := oracleStep s.oracle req
  (resp, { s with oracle := o, trace := s.trace ++ [req] })

/-- Append a console message. -/
def logMsg (m : LogMsg) (s : St) : St :=
  { s with log := s.log ++ [m] }

/-- Configuration loaded from the environment (interface CloudflareConfig).
`checkIntervalMinutes` is the result of JavaScript `parseInt`, where `none`
models `NaN`. -/
structure CloudflareConfig where
  apiToken : String
  zoneId : String
  allowedRecords : List String
  checkIntervalMinutes : Option Int
  deriving Repr, DecidableEq

/-- getCurrentIP: fetch the IP-echo service; any failure is caught and
rethrown as `Failed to get current IP`. -/
def getCurrentIP (s : St) : Except JSError String × St :=
  let (resp, s) := emit .getIP s
  match resp with
  | .ipResp ip => (.ok ip, s)
  | _ => (.error .failedGetIP, s)

/-- getAllDNSRecords: one GET of the zone's records with `per_page=100`;
throws a provider error carrying `data.errors` when `success` is false. -/
def getAllDNSRecords (s : St) : Except JSError (List DNSRecord) × St :=
  let (resp, s) := emit (.listRecords 100) s
  match resp with
  | .listResp true result _ => (.ok result, s)
  | .listResp false _ errors => (.error (.failedGetRecords errors), s)
  | _ => (.error .transport, s)

/-- getDNSRecord: GET a single record by id; throws a provider error carrying
`data.errors` when `success` is false. -/
def getDNSRecord (recordId : String) (s : St) : Except JSError DNSRecord × St :=
  let (resp, s) := emit (.getRecord recordId) s
  match resp with
  | .getResp true result _ => (.ok result, s)
  | .getResp false _ errors => (.error (.failedGetRecord errors), s)
  | _ => (.error .transport, s)

/-- updateDNSRecord: re-fetch the record to preserve settings, then PUT
`{ type, name, content := ip, ttl := current.ttl, proxied := current.proxied }`. -/
def updateDNSRecord (recordId name type ip : String) (s : St) :
    Except JSError Unit × St :=
  match getDNSRecord recordId s with
  | (.error e, s) => (.error e, s)
  | (.ok currentRecord, s) =>
    let body : PutBody :=
      { type := type, name := name, content := ip,
        ttl := currentRecord.ttl, proxied := currentRecord.proxied }
    let (resp, s) := emit (.putRecord recordId body) s
    match resp with
    | .putResp true _ => (.ok (), s)
    | .putResp false errors => (.error (.failedUpdateRecord errors), s)
    | _ => (.error .transport, s)

/-- The body of the per-record loop, including its try/catch: any error is
logged as `Error processing record` and the loop moves on. -/
def processRecord (currentIP : String) (record : DNSRecord) (s : St) : St :=
  let s := logMsg (.checkingRecord record.name record.type) s
  match getDNSRecord record.id s with
  | (.error e, s) => logMsg (.recordError record.name e) s
  | (.ok dnsRecord, s) =>
    let recordIP := dnsRecord.content
    let s := logMsg (.currentDNSIP recordIP) s
    if recordIP ≠ currentIP then
      let s := logMsg .mismatchDetected s
      match updateDNSRecord record.id record.name record.type currentIP s with
      | (.error e, s) => logMsg (.recordError record.name e) s
      | (.ok _, s) => logMsg (.updatedRecord record.name currentIP) s
    else
      logMsg .upToDate s

/-- The filter step of the tick:
`allRecords.filter((record) => config.allowedRecords.includes(record.name))`. -/
def filterAllowed (allowedNames : List String) (allRecords : List DNSRecord) :
    List DNSRecord :=
  allRecords.filter (fun record => allowedNames.contains record.name)

/-- Outcome of one tick: `exit1` models `process.exit(1)` from the outer
catch; `normal` models the function returning (early or after the loop). -/
inductive TickOutcome where
  | normal : TickOutcome
  | exit1 : TickOutcome
  deriving Repr, DecidableEq

/-- checkAndUpdateIP: one tick of the reconciler. -/
def checkAndUpdateIP (config : CloudflareConfig) (s : St) : TickOutcome × St :=
  let s := logMsg .starting s
  let s := logMsg (.lookingFor config.allowedRecords) s
  match getCurrentIP s with
  | (.error e, s) => (.exit1, logMsg (.fatalError e) s)
  | (.ok currentIP, s) =>
    let s := logMsg (.currentServerIP currentIP) s
    let s := logMsg .fetchingRecords s
    match getAllDNSRecords s with
    | (.error e, s) => (.exit1, logMsg (.fatalError e) s)
    | (.ok allRecords, s) =>
      let allowedRecords := filterAllowed config.allowedRecords allRecords
      if allowedRecords.length = 0 then
        (.normal, logMsg (.noMatchWarning config.allowedRecords) s)
      else
        let s := logMsg (.foundMatching allowedRecords.length) s
        let s := allowedRecords.foldl (fun s record => processRecord currentIP record s) s
        (.normal, logMsg .checkCompleted s)

/-- Run a tick on a fresh state (empty trace and log) over the given oracle. -/
def runTick (config : CloudflareConfig) (o : OracleState) : TickOutcome × St :=
  checkAndUpdateIP config { oracle := o, trace := [], log := [] }

/-- The requests of a trace that are update (PUT) calls. -/
def putsOf (tr : List Request) : List Request :=
  tr.filter (fun r => match r with | .putRecord _ _ => true | _ => false)

/-- The requests of a trace addressed to the DNS provider (everything but
the IP-discovery call). -/
def providerCallsOf (tr : List Request) : List Request :=
  tr.filter (fun r => match r with | .getIP => false | _ => true)

/-- The environment variables the program reads at startup, `none` meaning
the variable is unset.  `CLOUDFLARE_ALLOWED_RECORDS` is carried as its
already-parsed JSON value (the program feeds it straight to `JSON.parse`). -/
structure ProcessEnv where
  CLOUDFLARE_API_TOKEN : Option String
  CLOUDFLARE_ZONE_ID : Option String
  CLOUDFLARE_ALLOWED_RECORDS : Option (List String)
  CHECK_INTERVAL_MINUTES : Option String
  deriving Repr

/-- Leading-whitespace skipping, as JavaScript parseInt does first. -/
def skipWhitespace : List Char → List Char
  | [] => []
  | c :: cs => if c.isWhitespace then skipWhitespace cs else c :: cs

/-- The longest prefix of decimal digits, as digit values. -/
def digitsPrefix : List Char → List Nat
  | [] => []
  | c :: cs => if c.isDigit then (c.toNat - 48) :: digitsPrefix cs else []

/-- JavaScript `parseInt(s, 10)`: skip leading whitespace, take an optional
sign, then the longest prefix of decimal digits; `none` models `NaN` (no
digits found). -/
def parseIntBase10 (s : String) : Option Int :=
  let t := skipWhitespace s.data
  let signed : Int × List Char :=
    match t with
    | '-' :: cs => (-1, cs)
    | '+' :: cs => (1, cs)
    | cs => (1, cs)
  let ds := digitsPrefix signed.2
  if ds.isEmpty then none
  else some (signed.1 * (ds.foldl (fun n d => n * 10 + d) 0 : Nat))

/-- JavaScript `x || d` on an optional string: the default kicks in for an
unset variable and for the empty string (both falsy). -/
def orDefault (x : Option String) (d : String) : String :=
  match x with
  | none => d
  | some v => if v = "" then d else v

/-- The `config` value built at startup from the environment. -/
def loadConfig (env : ProcessEnv) : CloudflareConfig :=
  { apiToken := env.CLOUDFLARE_API_TOKEN.getD ""
    zoneId := env.CLOUDFLARE_ZONE_ID.getD ""
    allowedRecords := env.CLOUDFLARE_ALLOWED_RECORDS.getD []
    checkIntervalMinutes := parseIntBase10 (orDefault env.CHECK_INTERVAL_MINUTES "5") }

/-- Startup validation: the three `if` blocks that call `process.exit(1)`.
`true` means the process survives validation and enters the polling loop. -/
def startupOk (config : CloudflareConfig) : Bool :=
  !(config.apiToken = "") && !(config.zoneId = "") && !(config.allowedRecords.length = 0)

/-- Pointwise effect of a successful tick on a record of the live zone:
an allowed record's content becomes the discovered IP, others are untouched. -/
def setContentIfAllowed (allowedNames : List String) (ip : String) (r : DNSRecord) :
    DNSRecord :=
  if allowedNames.contains r.name then { r with content := ip } else r

/-- The zone a successful tick leaves behind on the live provider. -/
def reconcileZone (allowedNames : List String) (ip : String) (zone : List DNSRecord) :
    List DNSRecord :=
  zone.map (setContentIfAllowed allowedNames ip)

/-- Fixture: an A record for a.example.com holding 1.1.1.1. -/
def recA : DNSRecord :=
  { id := "idA", name := "a.example.com", type := "A", content := "1.1.1.1", proxied := false, ttl := 300 }

/-- Fixture: an A record for b.example.com holding 1.1.1.1. -/
def recB : DNSRecord :=
  { id := "idB", name := "b.example.com", type := "A", content := "1.1.1.1", proxied := true, ttl := 120 }

/-- Fixture: recA after its content has been set to 2.2.2.2. -/
def recAupd : DNSRecord := { recA with content := "2.2.2.2" }

/-- Fixture: recB after its content has been set to 2.2.2.2. -/
def recBupd : DNSRecord := { recB with content := "2.2.2.2" }

/-- Fixture: a record literally named with a wildcard. -/
def recWild : DNSRecord :=
  { id := "idW", name := "*.example.com", type := "A", content := "1.1.1.1", proxied := false, ttl := 60 }

/-- Fixture: a subdomain record a wildcard entry would cover under DNS
wildcard semantics, but not under literal string matching. -/
def recSub : DNSRecord :=
  { id := "idS", name := "x.example.com", type := "A", content := "1.1.1.1", proxied := false, ttl := 60 }

/-- Fixture: recA as re-fetched after an out-of-band rename and retype. -/
def recRenamed : DNSRecord :=
  { id := "idA", name := "renamed.example.com", type := "CNAME", content := "1.1.1.1", proxied := true, ttl := 900 }

/-- Fixture: configuration allowing only a.example.com. -/
def cfgA : CloudflareConfig :=
  { apiToken := "token", zoneId := "zone", allowedRecords := ["a.example.com"], checkIntervalMinutes := some 5 }

/-- Fixture: configuration allowing a.example.com then b.example.com. -/
def cfgAB : CloudflareConfig :=
  { apiToken := "token", zoneId := "zone", allowedRecords := ["a.example.com", "b.example.com"], checkIntervalMinutes := some 5 }

/-- Fixture: cfgAB with its allow-list permuted. -/
def cfgBA : CloudflareConfig :=
  { apiToken := "token", zoneId := "zone", allowedRecords := ["b.example.com", "a.example.com"], checkIntervalMinutes := some 5 }

/-- Fixture: the PUT the reconciler issues for recA when the IP is 2.2.2.2. -/
def putA : Request :=
  .putRecord "idA" { type := "A", name := "a.example.com", content := "2.2.2.2", ttl := 300, proxied := false }

/-- Fixture: the PUT the reconciler issues for recB when the IP is 2.2.2.2. -/
def putB : Request :=
  .putRecord "idB" { type := "A", name := "b.example.com", content := "2.2.2.2", ttl := 120, proxied := true }

/-- Fixture: an environment whose interval variable is non-numeric. -/
def envNaN : ProcessEnv :=
  { CLOUDFLARE_API_TOKEN := some "token", CLOUDFLARE_ZONE_ID := some "zone",
    CLOUDFLARE_ALLOWED_RECORDS := some ["a.example.com"], CHECK_INTERVAL_MINUTES := some "abc" }

/-- Fixture: an environment whose interval variable is negative. -/
def envNeg : ProcessEnv :=
  { CLOUDFLARE_API_TOKEN := some "token", CLOUDFLARE_ZONE_ID := some "zone",
    CLOUDFLARE_ALLOWED_RECORDS := some ["a.example.com"], CHECK_INTERVAL_MINUTES := some "-3" }

end CFIPChecker

namespace CFIPChecker

/-- A record keeps itself when its own content is written back. -/
theorem setContent_self (r : DNSRecord) : { r with content := r.content } = r := by
  cases r; rfl

/-- Under distinct ids, looking a member up by id finds exactly that member. -/
theorem find?_id_of_mem {zone : List DNSRecord} {r : DNSRecord}
    (hmem : r ∈ zone) (hnd : (zone.map DNSRecord.id).Nodup) :
    zone.find? (fun x => x.id == r.id) = some r := by
  induction zone with
  | nil => cases hmem
  | cons a zs ih =>
    rw [List.map_cons, List.nodup_cons] at hnd
    rcases List.mem_cons.mp hmem with h | h
    · subst h
      simp [List.find?_cons_of_pos]
    · have hne : (a.id == r.id) = false := by
        simp only [beq_eq_false_iff_ne, ne_eq]
        intro he
        exact hnd.1 (he ▸ List.mem_map_of_mem DNSRecord.id h)
      rw [List.find?_cons_of_neg _ (by simp [hne])]
      exact ih h hnd.2

/-- processRecord against the live provider when the record's stored content
already equals the discovered IP: only the single-record GET is issued. -/
theorem processRecord_live_eq {zone : List DNSRecord} {ip : String}
    {r rec : DNSRecord} {tr : List Request} {lg : List LogMsg}
    (hfind : zone.find? (fun x => x.id == r.id) = some rec)
    (hip : rec.content = ip) :
    processRecord ip r { oracle := .live zone ip, trace := tr, log := lg }
      = { oracle := .live zone ip, trace := tr ++ [.getRecord r.id],
          log := lg ++ [.checkingRecord r.name r.type, .currentDNSIP ip, .upToDate] } := by
  simp [processRecord, getDNSRecord, emit, oracleStep, logMsg, hfind, hip]

/-- processRecord against the live provider when the record's stored content
differs: two GETs and a PUT are issued and the zone entry is rewritten. -/
theorem processRecord_live_ne {zone : List DNSRecord} {ip : String}
    {r rec : DNSRecord} {tr : List Request} {lg : List LogMsg}
    (hfind : zone.find? (fun x => x.id == r.id) = some rec)
    (hip : rec.content ≠ ip) :
    processRecord ip r { oracle := .live zone ip, trace := tr, log := lg }
      = { oracle := .live
            (zone.map (fun x => if x.id == r.id
              then applyPut { type := r.type, name := r.name, content := ip,
                              ttl := rec.ttl, proxied := rec.proxied } x
              else x)) ip,
          trace := tr ++ [.getRecord r.id, .getRecord r.id,
            .putRecord r.id { type := r.type, name := r.name, content := ip,
                              ttl := rec.ttl, proxied := rec.proxied }],
          log := lg ++ [.checkingRecord r.name r.type, .currentDNSIP rec.content,
            .mismatchDetected, .updatedRecord r.name ip] } := by
  simp [processRecord, getDNSRecord, updateDNSRecord, emit, oracleStep, logMsg, hfind, hip]

/-- Effect of the per-record loop on the live zone: each processed record's
entry has its content set to the discovered IP. -/
theorem foldLive (ms : List DNSRecord) :
    ∀ (zone : List DNSRecord) (ip : String) (tr : List Request) (lg : List LogMsg),
    (zone.map DNSRecord.id).Nodup →
    (∀ m ∈ ms, zone.find? (fun x => x.id == m.id) = some m) →
    (ms.map DNSRecord.id).Nodup →
    (ms.foldl (fun s record => processRecord ip record s)
      { oracle := .live zone ip, trace := tr, log := lg }).oracle
      = .live (zone.map (fun r =>
          if ms.any (fun m => m.id == r.id) then { r with content := ip } else r)) ip := by
  induction ms with
  | nil =>
    intro zone ip tr lg _ _ _
    simp
  | cons m ms ih =>
    intro zone ip tr lg hnd hmem hmsnd
    rw [List.map_cons, List.nodup_cons] at hmsnd
    have hfind : zone.find? (fun x => x.id == m.id) = some m :=
      hmem m (List.mem_cons_self m ms)
    have hmemzone : m ∈ zone := List.mem_of_find?_eq_some hfind
    have hinj := List.inj_on_of_nodup_map hnd
    have hmemtail : ∀ m' ∈ ms, zone.find? (fun x => x.id == m'.id) = some m' :=
      fun m' hm' => hmem m' (List.mem_cons_of_mem _ hm')
    have hany : ∀ a : DNSRecord, a.id = m.id →
        (ms.any fun mm => mm.id == a.id) = false := by
      intro a ha
      rw [List.any_eq_false]
      intro mm hmm
      simp only [beq_iff_eq, ha]
      intro he
      exact hmsnd.1 (he ▸ List.mem_map_of_mem DNSRecord.id hmm)
    rw [List.foldl_cons]
    by_cases hip : m.content = ip
    · rw [processRecord_live_eq hfind hip, ih zone ip _ _ hnd hmemtail hmsnd.2]
      congr 1
      apply List.map_congr_left
      intro a ha
      by_cases hc : (a.id == m.id) = true
      · have haid : a.id = m.id := by simpa using hc
        have ham : a = m := hinj ha hmemzone haid
        have hac : a.content = ip := ham ▸ hip
        have h1 : (ms.any fun mm => mm.id == a.id) = false := hany a haid
        have h2 : (m.id == a.id) = true := by simp [haid]
        simp [List.any_cons, h1, h2, ← hac, setContent_self]
      · have hne : a.id ≠ m.id := by simpa using hc
        have hmf : (m.id == a.id) = false := by
          simp only [beq_eq_false_iff_ne, ne_eq]
          exact fun h => hne h.symm
        simp [List.any_cons, hmf]
    · rw [processRecord_live_ne hfind hip]
      set body : PutBody :=
        { type := m.type, name := m.name, content := ip,
          ttl := m.ttl, proxied := m.proxied } with hbody
      set fput : DNSRecord → DNSRecord :=
        fun x => if x.id == m.id then applyPut body x else x with hfput
      have hfid : ∀ x, (fput x).id = x.id := by
        intro x
        simp only [hfput]
        split <;> rfl
      have hnd₂ : ((zone.map fput).map DNSRecord.id).Nodup := by
        rw [List.map_map]
        have h : (DNSRecord.id ∘ fput) = DNSRecord.id := funext fun x => hfid x
        rw [h]; exact hnd
      have hmem₂ : ∀ m' ∈ ms, (zone.map fput).find? (fun x => x.id == m'.id) = some m' := by
        intro m' hm'
        have hne : m'.id ≠ m.id := by
          intro he
          exact hmsnd.1 (he ▸ List.mem_map_of_mem DNSRecord.id hm')
        have hpf : ((fun x => x.id == m'.id) ∘ fput) = (fun x => x.id == m'.id) := by
          funext x
          simp [Function.comp, hfid]
        rw [List.find?_map, hpf, hmemtail m' hm']
        have hfm : fput m' = m' := by
          simp only [hfput]
          exact if_neg (by simp [hne])
        simp [hfm]
      rw [ih (zone.map fput) ip _ _ hnd₂ hmem₂ hmsnd.2, List.map_map]
      congr 1
      apply List.map_congr_left
      intro a ha
      by_cases hc : (a.id == m.id) = true
      · have haid : a.id = m.id := by simpa using hc
        have ham : a = m := hinj ha hmemzone haid
        have hfa : fput a = { a with content := ip } := by
          simp only [hfput]
          rw [if_pos hc, hbody, ham]
          rfl
        have h1 : (ms.any fun mm => mm.id == a.id) = false := hany a haid
        have h2 : (m.id == a.id) = true := by simp [haid]
        simp only [Function.comp_apply, hfa]
        simp [List.any_cons, h1, h2]
      · have hne : a.id ≠ m.id := by simpa using hc
        have hmf : (m.id == a.id) = false := by
          simp only [beq_eq_false_iff_ne, ne_eq]
          exact fun h => hne h.symm
        have hfa : fput a = a := by
          simp only [hfput]
          exact if_neg (by simp [hne])
        simp only [Function.comp_apply, hfa]
        simp [List.any_cons, hmf]

theorem setContentIfAllowed_id (al : List String) (ip : String) (r : DNSRecord) :
    (setContentIfAllowed al ip r).id = r.id := by
  unfold setContentIfAllowed
  split <;> rfl

theorem setContentIfAllowed_name (al : List String) (ip : String) (r : DNSRecord) :
    (setContentIfAllowed al ip r).name = r.name := by
  unfold setContentIfAllowed
  split <;> rfl

theorem reconcileZone_ids (al : List String) (ip : String) (zone : List DNSRecord) :
    (reconcileZone al ip zone).map DNSRecord.id = zone.map DNSRecord.id := by
  unfold reconcileZone
  rw [List.map_map]
  exact List.map_congr_left fun a _ => setContentIfAllowed_id al ip a

theorem reconcileZone_content {al : List String} {ip : String} {zone : List DNSRecord}
    {r : DNSRecord} (hr : r ∈ reconcileZone al ip zone)
    (hc : al.contains r.name = true) : r.content = ip := by
  unfold reconcileZone at hr
  rcases List.mem_map.mp hr with ⟨r₀, _, hmap⟩
  have hname : r.name = r₀.name := by
    rw [← hmap]
    exact setContentIfAllowed_name al ip r₀
  rw [← hmap]
  unfold setContentIfAllowed
  rw [if_pos (by rw [← hname]; exact hc)]

theorem any_filter_id {al : List String} {zone : List DNSRecord}
    (hnd : (zone.map DNSRecord.id).Nodup) {r : DNSRecord} (hr : r ∈ zone) :
    ((filterAllowed al zone).any fun m => m.id == r.id) = al.contains r.name := by
  by_cases hc : al.contains r.name = true
  · rw [hc, List.any_eq_true]
    exact ⟨r, List.mem_filter.mpr ⟨hr, hc⟩, by simp⟩
  · rw [Bool.eq_false_iff.mpr hc, List.any_eq_false]
    intro mm hmm
    simp only [beq_iff_eq]
    intro he
    have hmmz : mm ∈ zone := (List.mem_filter.mp hmm).1
    have : mm = r := List.inj_on_of_nodup_map hnd hmmz hr he
    subst this
    exact hc (List.mem_filter.mp hmm).2

/-- A tick against the live provider leaves the zone reconciled. -/
theorem runTick_live_oracle (config : CloudflareConfig) (zone : List DNSRecord)
    (ip : String) (hnd : (zone.map DNSRecord.id).Nodup) :
    ((runTick config (.live zone ip)).2).oracle
      = .live (reconcileZone config.allowedRecords ip zone) ip := by
  simp only [runTick, checkAndUpdateIP, getCurrentIP, getAllDNSRecords, emit, oracleStep,
    logMsg]
  by_cases h0 : (filterAllowed config.allowedRecords zone).length = 0
  · rw [if_pos h0]
    have hnil : filterAllowed config.allowedRecords zone = [] :=
      List.length_eq_zero.mp h0
    have hno : ∀ r ∈ zone, config.allowedRecords.contains r.name = false := by
      intro r hr
      have h := List.filter_eq_nil_iff.mp hnil r hr
      simpa using h
    have hrec : reconcileZone config.allowedRecords ip zone = zone := by
      unfold reconcileZone
      apply (List.map_congr_left ?_).trans (List.map_id zone)
      intro a ha
      have h : ¬ a.name ∈ config.allowedRecords := by simpa using hno a ha
      simp [setContentIfAllowed, h]
    rw [hrec]
  · rw [if_neg h0]
    have hmem : ∀ m ∈ filterAllowed config.allowedRecords zone,
        zone.find? (fun x => x.id == m.id) = some m := by
      intro m hm
      exact find?_id_of_mem (List.mem_filter.mp hm).1 hnd
    have hmsnd : ((filterAllowed config.allowedRecords zone).map DNSRecord.id).Nodup :=
      ((List.filter_sublist zone).map DNSRecord.id).nodup hnd
    simp only [foldLive (filterAllowed config.allowedRecords zone) zone ip _ _ hnd hmem hmsnd]
    congr 1
    unfold reconcileZone
    apply List.map_congr_left
    intro a ha
    rw [any_filter_id hnd ha]
    rfl

/-- Folding the per-record step over records whose looked-up content already
equals the IP only appends single-record GETs to the trace. -/
theorem foldLive_trace_of_eq (ms : List DNSRecord) :
    ∀ (zone : List DNSRecord) (ip : String) (tr : List Request) (lg : List LogMsg),
    (∀ m ∈ ms, ∃ rec, zone.find? (fun x => x.id == m.id) = some rec ∧ rec.content = ip) →
    (ms.foldl (fun s record => processRecord ip record s)
      { oracle := .live zone ip, trace := tr, log := lg }).trace
      = tr ++ ms.map (fun m => .getRecord m.id) := by
  induction ms with
  | nil =>
    intro zone ip tr lg _
    simp
  | cons m ms ih =>
    intro zone ip tr lg h
    rcases h m (List.mem_cons_self m ms) with ⟨rec, hfind, hip⟩
    rw [List.foldl_cons, processRecord_live_eq hfind hip,
      ih zone ip _ _ (fun m' hm' => h m' (List.mem_cons_of_mem _ hm'))]
    simp

/-- Running two consecutive ticks with an unchanged discovered IP issues no
update call on the second tick. -/
theorem runTick_twice_noPut (config : CloudflareConfig) (zone : List DNSRecord)
    (ip : String) (hnd : (zone.map DNSRecord.id).Nodup) :
    putsOf ((runTick config ((runTick config (.live zone ip)).2.oracle)).2.trace) = [] := by
  rw [runTick_live_oracle config zone ip hnd]
  set zone₂ := reconcileZone config.allowedRecords ip zone with hz
  have hnd₂ : (zone₂.map DNSRecord.id).Nodup := by
    rw [hz, reconcileZone_ids]
    exact hnd
  simp only [runTick, checkAndUpdateIP, getCurrentIP, getAllDNSRecords, emit, oracleStep,
    logMsg]
  by_cases h0 : (filterAllowed config.allowedRecords zone₂).length = 0
  · rw [if_pos h0]
    simp [putsOf]
  · rw [if_neg h0]
    have h : ∀ m ∈ filterAllowed config.allowedRecords zone₂,
        ∃ rec, zone₂.find? (fun x => x.id == m.id) = some rec ∧ rec.content = ip := by
      intro m hm
      rcases List.mem_filter.mp hm with ⟨hmz, hcont⟩
      exact ⟨m, find?_id_of_mem hmz hnd₂, reconcileZone_content (hz ▸ hmz) hcont⟩
    simp only [foldLive_trace_of_eq (filterAllowed config.allowedRecords zone₂) zone₂ ip _ _ h]
    simp [putsOf, List.filter_append]

end CFIPChecker

namespace CFIPChecker

/-- C1: for every matched record whose stored content differs from the
discovered IP, exactly one update call is issued for it, and that call's
body sets content to the discovered IP while its ttl and proxied fields
equal the values returned by the single-record fetch performed immediately
before the write. -/
theorem claim1_update_preserves_ttl_proxied
    (r rec cur : DNSRecord) (e₁ e₂ e₃ : List String) (rest : List Response)
    (tr : List Request) (lg : List LogMsg) (ip : String)
    (hneq : rec.content ≠ ip) :
    (processRecord ip r
      { oracle := .scripted (.getResp true rec e₁ :: .getResp true cur e₂ :: .putResp true e₃ :: rest),
        trace := tr, log := lg }).trace
      = tr ++ [.getRecord r.id, .getRecord r.id,
          .putRecord r.id { type := r.type, name := r.name, content := ip, ttl := cur.ttl, proxied := cur.proxied }]
    ∧ putsOf (processRecord ip r
      { oracle := .scripted (.getResp true rec e₁ :: .getResp true cur e₂ :: .putResp true e₃ :: rest),
        trace := tr, log := lg }).trace
      = putsOf tr
          ++ [.putRecord r.id { type := r.type, name := r.name, content := ip, ttl := cur.ttl, proxied := cur.proxied }] := by
  have h : (processRecord ip r
      { oracle := .scripted (.getResp true rec e₁ :: .getResp true cur e₂ :: .putResp true e₃ :: rest),
        trace := tr, log := lg }).trace
      = tr ++ [.getRecord r.id, .getRecord r.id,
          .putRecord r.id { type := r.type, name := r.name, content := ip, ttl := cur.ttl, proxied := cur.proxied }] := by
    simp [processRecord, getDNSRecord, updateDNSRecord, emit, oracleStep, logMsg, hneq]
  refine ⟨h, ?_⟩
  rw [h]
  simp [putsOf, List.filter_append]

/-- C1 witness: recA is mismatched against 2.2.2.2 and the PUT body copies
ttl and proxied from the immediately preceding fetch (recRenamed). -/
theorem claim1_witness :
    recA.content ≠ "2.2.2.2"
    ∧ (processRecord "2.2.2.2" recA
      { oracle := .scripted [.getResp true recA [], .getResp true recRenamed [], .putResp true []],
        trace := [], log := [] }).trace
      = [] ++ [.getRecord recA.id, .getRecord recA.id,
          .putRecord recA.id { type := recA.type, name := recA.name, content := "2.2.2.2", ttl := recRenamed.ttl, proxied := recRenamed.proxied }] :=
  ⟨by decide,
   (claim1_update_preserves_ttl_proxied recA recA recRenamed [] [] [] [] [] [] "2.2.2.2" (by decide)).1⟩

/-- C2: a matched record whose re-read content equals the discovered IP
triggers no update call, and running two consecutive ticks against the live
provider with an unchanged discovered IP issues zero update calls on the
second tick. -/
theorem claim2_reconcile_idempotent
    (o o' : OracleState) (r rec : DNSRecord) (errs : List String)
    (ip : String) (tr : List Request) (lg : List LogMsg)
    (config : CloudflareConfig) (zone : List DNSRecord)
    (hstep : oracleStep o (.getRecord r.id) = (.getResp true rec errs, o'))
    (hip : rec.content = ip)
    (hnd : (zone.map DNSRecord.id).Nodup) :
    (processRecord ip r { oracle := o, trace := tr, log := lg }).trace = tr ++ [.getRecord r.id]
    ∧ putsOf ((runTick config ((runTick config (.live zone ip)).2.oracle)).2.trace) = [] := by
  constructor
  · simp [processRecord, getDNSRecord, emit, hstep, hip, logMsg]
  · exact runTick_twice_noPut config zone ip hnd

/-- C2 witness: a concrete up-to-date record issues only its GET, and two
live ticks over [recA, recB] issue zero updates on the second tick. -/
theorem claim2_witness :
    oracleStep (.scripted [.getResp true recAupd []]) (.getRecord recA.id)
      = (.getResp true recAupd [], .scripted [])
    ∧ recAupd.content = "2.2.2.2"
    ∧ ([recA, recB].map DNSRecord.id).Nodup
    ∧ ((processRecord "2.2.2.2" recA
          { oracle := .scripted [.getResp true recAupd []], trace := [], log := [] }).trace
        = [] ++ [.getRecord recA.id]
       ∧ putsOf ((runTick cfgA ((runTick cfgA (.live [recA, recB] "2.2.2.2")).2.oracle)).2.trace) = []) :=
  ⟨rfl, rfl, by decide,
   claim2_reconcile_idempotent _ _ recA recAupd [] "2.2.2.2" [] [] cfgA [recA, recB]
     rfl rfl (by decide)⟩

/-- C3: the filter keeps exactly the listed records whose name literally
appears in the allow-list (no wildcard expansion: a literal wildcard entry
matches only a record literally so named), and on the spec's concrete
scenario exactly one update occurs, targeting a.example.com only. -/
theorem claim3_filter_exact_match (al : List String) (records : List DNSRecord)
    (r : DNSRecord) :
    (r ∈ filterAllowed al records ↔ r ∈ records ∧ r.name ∈ al)
    ∧ putsOf ((runTick cfgA (.live [recA, recB] "2.2.2.2")).2.trace) = [putA]
    ∧ filterAllowed ["*.example.com"] [recSub, recWild] = [recWild] := by
  refine ⟨?_, by decide, by decide⟩
  simp [filterAllowed, List.mem_filter, List.elem_iff]

/-- C4: a per-record failure never aborts the tick (the outcome is normal
whenever IP discovery and listing succeed, whatever the later responses),
and in concrete two-record runs a provider error on record A still lets
record B reach its correct outcome: an update when mismatched, a no-op when
already equal. -/
theorem claim4_per_record_failure_isolation
    (config : CloudflareConfig) (ip : String) (records : List DNSRecord)
    (errs : List String) (rest : List Response) :
    (runTick config (.scripted (.ipResp ip :: .listResp true records errs :: rest))).1 = .normal
    ∧ runTick cfgAB (.scripted [.ipResp "2.2.2.2", .listResp true [recA, recB] [], .getResp false dummyRecord ["boom"], .getResp true recB [], .getResp true recB [], .putResp true []])
      = (.normal,
         { oracle := .scripted [],
           trace := [.getIP, .listRecords 100, .getRecord "idA", .getRecord "idB", .getRecord "idB", putB],
           log := [.starting, .lookingFor ["a.example.com", "b.example.com"], .currentServerIP "2.2.2.2", .fetchingRecords, .foundMatching 2, .checkingRecord "a.example.com" "A", .recordError "a.example.com" (.failedGetRecord ["boom"]), .checkingRecord "b.example.com" "A", .currentDNSIP "1.1.1.1", .mismatchDetected, .updatedRecord "b.example.com" "2.2.2.2", .checkCompleted] })
    ∧ runTick cfgAB (.scripted [.ipResp "2.2.2.2", .listResp true [recA, recB] [], .getResp false dummyRecord ["boom"], .getResp true recBupd []])
      = (.normal,
         { oracle := .scripted [],
           trace := [.getIP, .listRecords 100, .getRecord "idA", .getRecord "idB"],
           log := [.starting, .lookingFor ["a.example.com", "b.example.com"], .currentServerIP "2.2.2.2", .fetchingRecords, .foundMatching 2, .checkingRecord "a.example.com" "A", .recordError "a.example.com" (.failedGetRecord ["boom"]), .checkingRecord "b.example.com" "A", .currentDNSIP "2.2.2.2", .upToDate, .checkCompleted] }) := by
  refine ⟨?_, by decide, by decide⟩
  simp only [runTick, checkAndUpdateIP, getCurrentIP, getAllDNSRecords, emit, oracleStep,
    logMsg]
  split <;> rfl

/-- C5: a failure before the per-record loop is fatal to the process: a
failing IP-discovery call makes no provider call at all and exits with a
non-zero code, and a zone-listing failure (provider-reported or transport)
likewise exits instead of deferring to the next tick. -/
theorem claim5_preloop_failure_fatal
    (config : CloudflareConfig) (ip : String) (records : List DNSRecord)
    (errs : List String) (rest rest' rest'' : List Response) :
    runTick config (.scripted (.transportFail :: rest))
      = (.exit1,
         { oracle := .scripted rest, trace := [.getIP],
           log := [.starting, .lookingFor config.allowedRecords, .fatalError .failedGetIP] })
    ∧ providerCallsOf ((runTick config (.scripted (.transportFail :: rest))).2.trace) = []
    ∧ (runTick config (.scripted (.ipResp ip :: .listResp false records errs :: rest'))).1 = .exit1
    ∧ (runTick config (.scripted (.ipResp ip :: .transportFail :: rest''))).1 = .exit1 := by
  have h1 : runTick config (.scripted (.transportFail :: rest))
      = (.exit1,
         { oracle := .scripted rest, trace := [.getIP],
           log := [.starting, .lookingFor config.allowedRecords, .fatalError .failedGetIP] }) := by
    simp [runTick, checkAndUpdateIP, getCurrentIP, emit, oracleStep, logMsg]
  refine ⟨h1, ?_, ?_, ?_⟩
  · rw [h1]
    rfl
  · simp [runTick, checkAndUpdateIP, getCurrentIP, getAllDNSRecords, emit, oracleStep, logMsg]
  · simp [runTick, checkAndUpdateIP, getCurrentIP, getAllDNSRecords, emit, oracleStep, logMsg]

/-- C6: when zero listed records match the allow-list the tick logs a
warning and returns normally, issuing no single-record fetch and no update
call, so the loop continues at the next interval. -/
theorem claim6_no_match_early_return
    (config : CloudflareConfig) (ip : String) (records : List DNSRecord)
    (errs : List String) (rest : List Response)
    (h : filterAllowed config.allowedRecords records = []) :
    runTick config (.scripted (.ipResp ip :: .listResp true records errs :: rest))
      = (.normal,
         { oracle := .scripted rest,
           trace := [.getIP, .listRecords 100],
           log := [.starting, .lookingFor config.allowedRecords, .currentServerIP ip, .fetchingRecords, .noMatchWarning config.allowedRecords] }) := by
  simp [runTick, checkAndUpdateIP, getCurrentIP, getAllDNSRecords, emit, oracleStep, logMsg, h]

/-- C6 witness: cfgA matches nothing in a zone holding only b.example.com. -/
theorem claim6_witness :
    filterAllowed cfgA.allowedRecords [recB] = []
    ∧ runTick cfgA (.scripted [.ipResp "2.2.2.2", .listResp true [recB] []])
      = (.normal,
         { oracle := .scripted [],
           trace := [.getIP, .listRecords 100],
           log := [.starting, .lookingFor cfgA.allowedRecords, .currentServerIP "2.2.2.2", .fetchingRecords, .noMatchWarning cfgA.allowedRecords] }) :=
  ⟨by decide, claim6_no_match_early_return cfgA "2.2.2.2" [recB] [] [] (by decide)⟩

/-- C7: the zone listing issues exactly one request with page size 100
whatever the oracle answers (no pagination loop), returns exactly the
response's result array on success, and surfaces the provider-supplied
error payload when the success flag is false. -/
theorem claim7_single_page_listing (s : St) (result : List DNSRecord)
    (errs : List String) (rest : List Response) (tr : List Request) (lg : List LogMsg) :
    ((getAllDNSRecords s).2).trace = s.trace ++ [.listRecords 100]
    ∧ getAllDNSRecords { oracle := .scripted (.listResp true result errs :: rest), trace := tr, log := lg }
      = (.ok result, { oracle := .scripted rest, trace := tr ++ [.listRecords 100], log := lg })
    ∧ getAllDNSRecords { oracle := .scripted (.listResp false result errs :: rest), trace := tr, log := lg }
      = (.error (.failedGetRecords errs), { oracle := .scripted rest, trace := tr ++ [.listRecords 100], log := lg }) := by
  refine ⟨?_, rfl, rfl⟩
  rcases h : oracleStep s.oracle (.listRecords 100) with ⟨resp, o⟩
  simp only [getAllDNSRecords, emit, h]
  rcases resp with _ | _ | ⟨_ | _, _, _⟩ | ⟨_, _, _⟩ | ⟨_, _⟩ <;> rfl

/-- C8 counterexample: permuting the allow-list leaves the tick's entire
request trace unchanged, and the update order follows the zone-listing
order (b.example.com before a.example.com) even though cfgAB's allow-list
iterates a.example.com first — the log/update order does not depend on the
allow-list's iteration order. -/
theorem claim8_counterexample :
    (runTick cfgAB (.live [recB, recA] "2.2.2.2")).2.trace
      = (runTick cfgBA (.live [recB, recA] "2.2.2.2")).2.trace
    ∧ putsOf ((runTick cfgAB (.live [recB, recA] "2.2.2.2")).2.trace) = [putB, putA]
    ∧ cfgAB.allowedRecords = ["a.example.com", "b.example.com"]
    ∧ cfgBA.allowedRecords = ["b.example.com", "a.example.com"] :=
  ⟨by decide, by decide, rfl, rfl⟩

/-- C8 amended: the order of entries in the allow-list is irrelevant both
for which records are matched and for the order in which they are processed;
matched records are processed in zone-listing order (the filtered list is a
sublist of the listing, in its order). -/
theorem claim8_amended_order_irrelevant (al al' : List String)
    (records : List DNSRecord) (h : al.Perm al') :
    filterAllowed al records = filterAllowed al' records
    ∧ (filterAllowed al records).Sublist records := by
  constructor
  · unfold filterAllowed
    apply List.filter_congr
    intro a _
    rw [Bool.eq_iff_iff]
    simp only [List.elem_iff]
    exact h.mem_iff
  · exact List.filter_sublist records

/-- C8 witness: a concrete permuted pair of allow-lists selects the same
records in the same order. -/
theorem claim8_witness :
    (["a.example.com", "b.example.com"] : List String).Perm ["b.example.com", "a.example.com"]
    ∧ (filterAllowed ["a.example.com", "b.example.com"] [recB, recA]
        = filterAllowed ["b.example.com", "a.example.com"] [recB, recA]
       ∧ (filterAllowed ["a.example.com", "b.example.com"] [recB, recA]).Sublist [recB, recA]) :=
  ⟨by decide,
   claim8_amended_order_irrelevant ["a.example.com", "b.example.com"]
     ["b.example.com", "a.example.com"] [recB, recA] (by decide)⟩

/-- C9: the PUT body takes only ttl and proxied from the snapshot fetched
immediately before the write; its name and type come from the earlier
zone-listing entry, so when the re-fetched record's name or type differs
(an out-of-band change) the stale listed values are written anyway. -/
theorem claim9_put_uses_listed_name_type
    (r rec cur : DNSRecord) (e₁ e₂ e₃ : List String) (rest : List Response)
    (tr : List Request) (lg : List LogMsg) (ip : String)
    (hneq : rec.content ≠ ip) (hname : cur.name ≠ r.name) (htype : cur.type ≠ r.type) :
    (processRecord ip r
      { oracle := .scripted (.getResp true rec e₁ :: .getResp true cur e₂ :: .putResp true e₃ :: rest),
        trace := tr, log := lg }).trace
      = tr ++ [.getRecord r.id, .getRecord r.id,
          .putRecord r.id { type := r.type, name := r.name, content := ip, ttl := cur.ttl, proxied := cur.proxied }]
    ∧ ({ type := r.type, name := r.name, content := ip, ttl := cur.ttl, proxied := cur.proxied } : PutBody).name ≠ cur.name
    ∧ ({ type := r.type, name := r.name, content := ip, ttl := cur.ttl, proxied := cur.proxied } : PutBody).type ≠ cur.type := by
  refine ⟨?_, fun hh => hname hh.symm, fun hh => htype hh.symm⟩
  simp [processRecord, getDNSRecord, updateDNSRecord, emit, oracleStep, logMsg, hneq]

/-- C9 witness: recA was listed as an A record named a.example.com, the
re-fetch returns a renamed CNAME, and the PUT still writes the listed name
and type. -/
theorem claim9_witness :
    recA.content ≠ "2.2.2.2" ∧ recRenamed.name ≠ recA.name ∧ recRenamed.type ≠ recA.type
    ∧ ((processRecord "2.2.2.2" recA
        { oracle := .scripted [.getResp true recA [], .getResp true recRenamed [], .putResp true []],
          trace := [], log := [] }).trace
      = [] ++ [.getRecord recA.id, .getRecord recA.id,
          .putRecord recA.id { type := recA.type, name := recA.name, content := "2.2.2.2", ttl := recRenamed.ttl, proxied := recRenamed.proxied }]
       ∧ ({ type := recA.type, name := recA.name, content := "2.2.2.2", ttl := recRenamed.ttl, proxied := recRenamed.proxied } : PutBody).name ≠ recRenamed.name
       ∧ ({ type := recA.type, name := recA.name, content := "2.2.2.2", ttl := recRenamed.ttl, proxied := recRenamed.proxied } : PutBody).type ≠ recRenamed.type) :=
  ⟨by decide, by decide, by decide,
   claim9_put_uses_listed_name_type recA recA recRenamed [] [] [] [] [] [] "2.2.2.2"
     (by decide) (by decide) (by decide)⟩

/-- C10: startup validation rejects only an empty credential, an empty zone
identifier and an empty allow-list; the poll interval is never consulted,
so the process starts and enters the loop for every interval value —
including a non-numeric string (parsed to NaN) and a negative number —
whenever the three required fields are non-empty. -/
theorem claim10_interval_never_validated (env : ProcessEnv) (iv : Option String) :
    startupOk (loadConfig { env with CHECK_INTERVAL_MINUTES := iv })
      = startupOk (loadConfig env)
    ∧ (startupOk (loadConfig env) = true ↔
        (env.CLOUDFLARE_API_TOKEN.getD "" ≠ "" ∧ env.CLOUDFLARE_ZONE_ID.getD "" ≠ ""
         ∧ env.CLOUDFLARE_ALLOWED_RECORDS.getD [] ≠ []))
    ∧ parseIntBase10 "abc" = none
    ∧ (loadConfig envNaN).checkIntervalMinutes = none
    ∧ startupOk (loadConfig envNaN) = true
    ∧ (loadConfig envNeg).checkIntervalMinutes = some (-3)
    ∧ startupOk (loadConfig envNeg) = true := by
  refine ⟨rfl, ?_, by decide, by decide, by decide, by decide, by decide⟩
  simp [startupOk, loadConfig, Bool.and_eq_true, List.length_eq_zero, ne_eq, and_assoc]

end CFIPChecker
